import Mathlib

/-
Verification of the scene-resource manager and frame controller of the
Cook repository (dog_core). The definitions below are a shallow embedding
of src/framework/dog_core/excludeFromBuild/handlers/SceneHandler.cpp and
src/framework/dog_core/excludeFromBuild/Renderer.cpp. GPU backend calls
(OptiX / CUDA) are modelled by boolean success oracles; device buffers are
modelled as host-visible tables; size_t arithmetic is Nat modulo 2^64.
Floating-point matrix math (the inverse-transpose normal matrix written by
createNodeInstance) is abstracted to the token of the source transform,
since the checked properties quantify over which slots and buffer copies
are written, not over numeric matrix entries.
-/

namespace Cook

/-- 0xFFFFFFFF, the value the SlotFinder returns when the pool is exhausted. -/
def UINT32_MAX : Nat := 2 ^ 32 - 1

/-- size_t modulus: hashes are 64-bit values. -/
def SIZE_T_MOD : Nat := 2 ^ 64

/-- Modelled from the spec: the distinguished invalid node identifier
(sabi ItemID INVALID_ID, declared outside src). Its concrete value is
immaterial to every claim; node ids used in scenarios avoid it. -/
def INVALID_ID : Nat := 0

/-- One surface of a CgModel: a matrix F of triangle indices, modelled as
the list of its columns (index triples). External sabi type, modelled from
its use in SceneHandler.cpp. -/
structure CgModelSurface where
  F : List (Nat × Nat × Nat)
deriving DecidableEq

/-- External sabi::CgModel, modelled from its use in SceneHandler.cpp:
V is the 3 x n vertex-position matrix (list of columns), S the surfaces,
triCount the stored triangle count, valid the result of isValid().
Coordinates are modelled as integers (the mathematical values fed to the
hash; the claims do not depend on float rounding). -/
structure CgModel where
  V : List (Int × Int × Int)
  S : List CgModelSurface
  triCount : Nat
  valid : Bool
deriving DecidableEq

/-- cgModel->vertexCount(): the number of vertex columns of V. -/
def vertexCount (m : CgModel) : Nat := m.V.length

/-- cgModel->triangleCount(): the stored triangle count. -/
def triangleCount (m : CgModel) : Nat := m.triCount

/-- V(0, 0): first coordinate of the first vertex column (guarded by
V.cols() > 0 at the call site). -/
def firstX (m : CgModel) : Int := (m.V.headD (0, 0, 0)).1

/-- V(0, cols-1): first coordinate of the last vertex column (guarded by
V.cols() > 1 at the call site). -/
def lastX (m : CgModel) : Int := (m.V.getLastD (0, 0, 0)).1

/-- std::hash of size_t (libstdc++: the identity on the 64-bit value). -/
def hashSizeT (x : Nat) : Nat := x % SIZE_T_MOD

/-- Conversion of a float vertex coordinate to size_t before hashing,
modelled on integral coordinate values. -/
def floatToSizeT (x : Int) : Nat := (x % (2 ^ 64 : Int)).toNat

/-- 64-bit xor. -/
def xor64 (a b : Nat) : Nat := (a ^^^ b) % SIZE_T_MOD

/-- 64-bit left shift with overflow discarded. -/
def shl64 (a k : Nat) : Nat := (a <<< k) % SIZE_T_MOD

/-- SceneHandler::computeGeometryHash (SceneHandler.cpp:528-544): xor of
the hashed vertex count, the hashed triangle count shifted by 1, and, when
present, the hashed first coordinates of the first and last vertex columns
shifted by 2 and 3. -/
def computeGeometryHash (m : CgModel) : Nat :=
  let h1 := hashSizeT (vertexCount m)
  let h2 := xor64 h1 (shl64 (hashSizeT (triangleCount m)) 1)
  let h3 :=
    if 0 < m.V.length then xor64 h2 (shl64 (hashSizeT (floatToSizeT (firstX m))) 2) else h2
  if 1 < m.V.length then xor64 h3 (shl64 (hashSizeT (floatToSizeT (lastX m))) 3) else h3

/-- One geometry-cache entry (GeometryGroupResources): the reference count
of the shared device geometry group. Entry presence models liveness of the
device buffers and the bottom-level structure. -/
structure GeometryGroupResources where
  ref_count : Nat
deriving DecidableEq

/-- Per-node record (NodeResources) stored in node_resources_. -/
structure NodeResources where
  instance_slot : Nat
  geom_inst_slot : Nat
  geometry_hash : Nat
  optix_instance_index : Nat
  is_emissive : Bool
deriving DecidableEq

/-- One entry of the double-buffered instance data table, as written by
createNodeInstance (SceneHandler.cpp:786-805). Numeric matrices are
abstracted to the token of the source world transform. -/
structure InstanceData where
  transform : Nat
  curToPrevTransform : Nat
  normalMatrixSrc : Nat
  uniformScaleIsOne : Bool
  isEmissive : Nat
  emissiveScaleIsOne : Bool
deriving DecidableEq

/-- One entry of the geometry-instance data table, as written by
createNodeInstance (SceneHandler.cpp:773-783). Buffer views are abstracted
to the geometry hash of the group they view. -/
structure GeometryInstanceData where
  vertexBufferOf : Nat
  triangleBufferOf : Nat
  materialSlot : Nat
  geomInstSlot : Nat
deriving DecidableEq

/-- The fixed slot-pool capacities maxNumMaterials, maxNumGeometryInstances
and maxNumInstances, declared in the SceneHandler header (outside src);
kept as parameters since only their uint32 range matters. -/
structure Caps where
  maxNumMaterials : Nat
  maxNumGeometryInstances : Nat
  maxNumInstances : Nat
deriving DecidableEq

/-- The SceneHandler state after successful initialization:
node_resources_ and geometry_cache_ as association lists, the two slot
finders as lists of in-use indices, the IAS child count, the traversable
handle, the has-geometry and needs-rebuild flags, a counter of bottom-level
builds performed, and the device data tables (inst_data_buffer_[0],
inst_data_buffer_[1], geom_inst_data_buffer_) as partial maps. -/
structure SceneState where
  node_resources : List (Nat × NodeResources)
  geometry_cache : List (Nat × GeometryGroupResources)
  instInUse : List Nat
  geomInstInUse : List Nat
  iasChildren : Nat
  traversable_handle : Nat
  has_geometry : Bool
  ias_needs_rebuild : Bool
  blasBuilds : Nat
  instData0 : Nat → Option InstanceData
  instData1 : Nat → Option InstanceData
  geomInstData : Nat → Option GeometryInstanceData

/-- Association-list lookup by key (std::unordered_map::find). -/
def lookupKey {α : Type} (k : Nat) : List (Nat × α) → Option α
  | [] => none
  | p :: rest => if p.1 = k then some p.2 else lookupKey k rest

/-- Association-list erase of the first entry with the given key
(std::unordered_map::erase of a found iterator). -/
def eraseKey {α : Type} (k : Nat) : List (Nat × α) → List (Nat × α)
  | [] => []
  | p :: rest => if p.1 = k then rest else p :: eraseKey k rest

/-- SlotFinder::getFirstAvailableSlot over a pool of the given capacity:
the least index below the capacity that is not in use, or 0xFFFFFFFF when
the pool is exhausted. -/
def getFirstAvailableSlot (cap : Nat) (inUse : List Nat) : Nat :=
  match (List.range cap).find? (fun n => !(inUse.contains n)) with
  | some n => n
  | none => UINT32_MAX

/-- geomGroup->ref_count++ on the cache entry with the given hash. -/
def bumpRef (c : List (Nat × GeometryGroupResources)) (h : Nat) :
    List (Nat × GeometryGroupResources) :=
  c.map (fun p => if p.1 = h then (p.1, { p.2 with ref_count := p.2.ref_count + 1 }) else p)

/-- geomGroup->ref_count-- on the cache entry with the given hash. -/
def decRef (c : List (Nat × GeometryGroupResources)) (h : Nat) :
    List (Nat × GeometryGroupResources) :=
  c.map (fun p => if p.1 = h then (p.1, { p.2 with ref_count := p.2.ref_count - 1 }) else p)

/-- Pointwise update of a device data table at one slot. -/
def writeBuf {α : Type} (b : Nat → Option α) (i : Nat) (v : α) : Nat → Option α :=
  fun j => if j = i then some v else b j

/-- The inputs of one addRenderableNode call: whether the weak reference
locks, the node id, the model (none when getModel() is null), the backend
success oracles for createGeometryGroup and createNodeInstance, and a
token for the node world transform. -/
structure NodeInput where
  alive : Bool
  id : Nat
  model : Option CgModel
  gpuFailGeom : Bool
  instOk : Bool
  transform : Nat
deriving DecidableEq

/-- createGeometryGroup succeeds (SceneHandler.cpp:546-700): the model is
valid, no backend exception occurs, and at least one surface has a
nonempty triangle list (otherwise "No valid surfaces found"). -/
def createGeometryGroupOk (m : CgModel) (gpuFail : Bool) : Bool :=
  m.valid && !gpuFail && m.S.any (fun sf => !sf.F.isEmpty)

/-- The InstanceData record written by createNodeInstance: the transform,
curToPrevTransform copied from it, the normal matrix derived from it,
uniformScale 1, the emissive flag, emissiveScale 1. -/
def mkInstanceData (t : Nat) (emissive : Bool) : InstanceData :=
  { transform := t, curToPrevTransform := t, normalMatrixSrc := t,
    uniformScaleIsOne := true, isEmissive := if emissive then 1 else 0,
    emissiveScaleIsOne := true }

/-- The tail of SceneHandler::addRenderableNode after the geometry-cache
intern step (SceneHandler.cpp:334-368), entered with the instance slot
already claimed and the cache claim for hash h already taken in s2:
allocate the geometry-instance slot (on exhaustion release the instance
slot and decrement the ref count), run createNodeInstance (on failure
release both slots and decrement the ref count), else write the data
tables, record the NodeResources and set the rebuild flag. -/
def addAfterIntern (C : Caps) (inp : NodeInput) (islot h : Nat) (s2 : SceneState) :
    Bool × SceneState :=
  let gslot := getFirstAvailableSlot C.maxNumGeometryInstances s2.geomInstInUse
  if C.maxNumGeometryInstances ≤ gslot then
    (false, { s2 with instInUse := s2.instInUse.erase islot,
                      geometry_cache := decRef s2.geometry_cache h })
  else
    let s3 : SceneState := { s2 with geomInstInUse := gslot :: s2.geomInstInUse }
    if !inp.instOk then
      (false, { s3 with instInUse := s3.instInUse.erase islot,
                        geomInstInUse := s3.geomInstInUse.erase gslot,
                        geometry_cache := decRef s3.geometry_cache h })
    else
      let res : NodeResources :=
        { instance_slot := islot, geom_inst_slot := gslot, geometry_hash := h,
          optix_instance_index := s3.iasChildren, is_emissive := false }
      (true, { s3 with
        iasChildren := s3.iasChildren + 1,
        geomInstData := writeBuf s3.geomInstData gslot
          { vertexBufferOf := h, triangleBufferOf := h, materialSlot := 0,
            geomInstSlot := gslot },
        instData0 := writeBuf s3.instData0 islot (mkInstanceData inp.transform res.is_emissive),
        node_resources := (inp.id, res) :: s3.node_resources,
        ias_needs_rebuild := true,
        has_geometry := true })

/-- SceneHandler::addRenderableNode (SceneHandler.cpp:251-369): fail on an
expired reference or invalid id; succeed without change when the id is
already present; fail on a missing or invalid model; allocate the instance
slot (fail when exhausted); intern the geometry hash in the cache,
building the group on first use (on build failure release the instance
slot and fail); then continue with addAfterIntern. -/
def addRenderableNode (C : Caps) (inp : NodeInput) (s : SceneState) : Bool × SceneState :=
  if !inp.alive then (false, s)
  else if inp.id = INVALID_ID then (false, s)
  else if (lookupKey inp.id s.node_resources).isSome then (true, s)
  else
    match inp.model with
    | none => (false, s)
    | some m =>
      if !m.valid then (false, s)
      else
        let islot := getFirstAvailableSlot C.maxNumInstances s.instInUse
        if C.maxNumInstances ≤ islot then (false, s)
        else
          let s1 : SceneState := { s with instInUse := islot :: s.instInUse }
          let h := computeGeometryHash m
          match lookupKey h s.geometry_cache with
          | some _ =>
            addAfterIntern C inp islot h { s1 with geometry_cache := bumpRef s.geometry_cache h }
          | none =>
            if createGeometryGroupOk m inp.gpuFailGeom then
              addAfterIntern C inp islot h
                { s1 with geometry_cache := (h, { ref_count := 1 }) :: s.geometry_cache,
                          blasBuilds := s.blasBuilds + 1 }
            else
              (false, { s1 with instInUse := s1.instInUse.erase islot })

/-- SceneHandler::removeRenderableNodeByID (SceneHandler.cpp:393-445):
fail when the id is not tracked; otherwise release both slots (each
guarded against the 0xFFFFFFFF sentinel), erase the NodeResources, set the
rebuild flag, and clear has_geometry when no nodes remain. The geometry
cache is not touched. -/
def removeRenderableNodeByID (id : Nat) (s : SceneState) : Bool × SceneState :=
  match lookupKey id s.node_resources with
  | none => (false, s)
  | some r =>
    let inst' := if r.instance_slot ≠ UINT32_MAX then s.instInUse.erase r.instance_slot
                 else s.instInUse
    let geom' := if r.geom_inst_slot ≠ UINT32_MAX then s.geomInstInUse.erase r.geom_inst_slot
                 else s.geomInstInUse
    let nodes' := eraseKey id s.node_resources
    (true, { s with instInUse := inst', geomInstInUse := geom',
                    node_resources := nodes',
                    ias_needs_rebuild := true,
                    has_geometry := if nodes'.isEmpty then false else s.has_geometry })

/-- SceneHandler::removeRenderableNode (SceneHandler.cpp:371-391): fail
when the weak reference is expired, else remove by the locked node id. -/
def removeRenderableNode (alive : Bool) (id : Nat) (s : SceneState) : Bool × SceneState :=
  if !alive then (false, s) else removeRenderableNodeByID id s

/-- SceneHandler::buildAccelerationStructures (SceneHandler.cpp:138-232):
with no IAS children, set the handle to 0 and clear has_geometry,
returning success; otherwise submit the build (backendOk models the whole
try block succeeding, builtHandle the handle the backend reports); on
backend failure return false leaving the state untouched. -/
def buildAccelerationStructures (backendOk : Bool) (builtHandle : Nat) (s : SceneState) :
    Bool × SceneState :=
  if s.iasChildren = 0 then
    (true, { s with traversable_handle := 0, has_geometry := false })
  else if backendOk then
    (true, { s with traversable_handle := builtHandle, has_geometry := true,
                    ias_needs_rebuild := false })
  else (false, s)

/-- SceneHandler::getNodeCount. -/
def getNodeCount (s : SceneState) : Nat := s.node_resources.length

/-- SceneHandler::hasGeometry. -/
def hasGeometry (s : SceneState) : Bool := s.has_geometry

/-- SceneHandler::getTraversableHandle. -/
def getTraversableHandle (s : SceneState) : Nat := s.traversable_handle

/-- The SceneHandler state right after initialize() (SceneHandler.cpp:18-88). -/
def initialState : SceneState :=
  { node_resources := [], geometry_cache := [], instInUse := [], geomInstInUse := [],
    iasChildren := 0, traversable_handle := 0, has_geometry := false,
    ias_needs_rebuild := false, blasBuilds := 0,
    instData0 := fun _ => none, instData1 := fun _ => none, geomInstData := fun _ => none }

/-- One public node-lifecycle operation. -/
inductive SceneOp where
  | add (inp : NodeInput)
  | remove (alive : Bool) (id : Nat)
  | removeByID (id : Nat)

/-- Apply one operation, keeping the resulting state. -/
def applyOp (C : Caps) (s : SceneState) : SceneOp → SceneState
  | .add inp => (addRenderableNode C inp s).2
  | .remove alive id => (removeRenderableNode alive id s).2
  | .removeByID id => (removeRenderableNodeByID id s).2

/-- Run a sequence of add/remove operations. -/
def runOps (C : Caps) (ops : List SceneOp) (s : SceneState) : SceneState :=
  ops.foldl (applyOp C) s

/-
Frame controller (Renderer.cpp). Camera snapshots are abstracted to
tokens; the accumulation state machine and the per-frame launch parameters
are translated from Renderer::render and Renderer::updateCameraBody.
-/

/-- maxAccumulationFrames_ (Renderer.h:55). -/
def maxAccumulationFrames : Nat := 1024

/-- The renderer fields driving accumulation (Renderer.h:48-55). -/
structure RendererState where
  accumulationFrame : Nat
  cameraChanged : Bool
  restartAccumulation : Bool
  currentCamera : Nat
  previousCamera : Nat
deriving DecidableEq

/-- The per-frame inputs of Renderer::render: whether the externally
owned camera reports isDirty() or hasSettingsChanged(), the updateMotion
argument, the frame number, and a token for the fresh camera snapshot. -/
structure FrameInput where
  cameraDirtyOrSettingsChanged : Bool
  updateMotion : Bool
  frameNumber : Nat
  newCameraSnapshot : Nat
deriving DecidableEq

/-- The accumulation-relevant per-frame launch parameters
(Renderer.cpp:275-284). -/
structure PerFrameLaunchParams where
  numAccumFrames : Nat
  frameIndex : Nat
  bufferIndex : Nat
  cameraTok : Nat
  prevCameraTok : Nat
  resetFlowBuffer : Bool
deriving DecidableEq

/-- Renderer::updateCameraBody (Renderer.cpp:509-591): save the previous
camera, then on a dirty or settings-changed camera set cameraChanged_ and
restartAccumulation_ and take the fresh snapshot, clearing the dirty flag. -/
def updateCameraBody (inp : FrameInput) (s : RendererState) : RendererState :=
  let s0 := { s with previousCamera := s.currentCamera }
  if inp.cameraDirtyOrSettingsChanged then
    { s0 with cameraChanged := true, restartAccumulation := true,
              currentCamera := inp.newCameraSnapshot }
  else s0

/-- Renderer::render (Renderer.cpp:228-316), accumulation part: update the
camera; reset the accumulation counter and clear both flags when either
flag is set, else increment it while below the cap; reset it again when
updateMotion is set; build the launch parameters; store the camera as
previous for the next frame. -/
def renderStep (inp : FrameInput) (s : RendererState) :
    RendererState × PerFrameLaunchParams :=
  let s1 := updateCameraBody inp s
  let s2 :=
    if s1.cameraChanged || s1.restartAccumulation then
      { s1 with accumulationFrame := 0, cameraChanged := false,
                restartAccumulation := false }
    else if s1.accumulationFrame < maxAccumulationFrames then
      { s1 with accumulationFrame := s1.accumulationFrame + 1 }
    else s1
  let s3 := if inp.updateMotion then { s2 with accumulationFrame := 0 } else s2
  let params : PerFrameLaunchParams :=
    { numAccumFrames := s3.accumulationFrame,
      frameIndex := inp.frameNumber,
      bufferIndex := inp.frameNumber % 2,
      cameraTok := s3.currentCamera,
      prevCameraTok := s3.previousCamera,
      resetFlowBuffer := s3.accumulationFrame == 0 }
  ({ s3 with previousCamera := s3.currentCamera }, params)

/-- The renderer accumulation state at initialization (Renderer.h:48-55). -/
def initialRendererState : RendererState :=
  { accumulationFrame := 0, cameraChanged := false, restartAccumulation := false,
    currentCamera := 0, previousCamera := 0 }

/- Concrete inputs used by the witnesses. -/

/-- A pool configuration of the shape the handler initializes. -/
def capsW : Caps := { maxNumMaterials := 1024, maxNumGeometryInstances := 4096,
                      maxNumInstances := 4096 }

/-- A NodeResources record claiming slot 0 in both pools. -/
def nodeRes1 : NodeResources :=
  { instance_slot := 0, geom_inst_slot := 0, geometry_hash := 7,
    optix_instance_index := 0, is_emissive := false }

/-- A scene already tracking node 1 on slot 0. -/
def stateW7 : SceneState :=
  { initialState with node_resources := [(1, nodeRes1)], instInUse := [0],
                      geomInstInUse := [0] }

/-- A re-add of node 1, which is already present. -/
def inpW7 : NodeInput :=
  { alive := true, id := 1, model := none, gpuFailGeom := false, instOk := true,
    transform := 5 }

/-- A scene with one placed instance and a built handle. -/
def stateW4 : SceneState :=
  { initialState with iasChildren := 1, traversable_handle := 42, has_geometry := true }

/-- A renderer state mid-accumulation with both restart flags clear. -/
def rsW5 : RendererState :=
  { accumulationFrame := 5, cameraChanged := false, restartAccumulation := false,
    currentCamera := 2, previousCamera := 1 }

/-- A frame whose camera is dirty and whose motion flag is clear. -/
def fiW5 : FrameInput :=
  { cameraDirtyOrSettingsChanged := true, updateMotion := false, frameNumber := 7,
    newCameraSnapshot := 3 }

/-- A triangle model: 3 vertices, one surface, one triangle. -/
def mW8a : CgModel :=
  { V := [(1, 0, 0), (2, 5, 5), (3, 0, 0)], S := [{ F := [(0, 1, 2)] }],
    triCount := 1, valid := true }

/-- A different model agreeing with mW8a only on the hashed sample: same
vertex and triangle counts, same first coordinate of the first and last
vertex, everything else different. -/
def mW8b : CgModel :=
  { V := [(1, 9, 9), (7, 7, 7), (3, 4, 4)], S := [{ F := [(2, 1, 0)] }],
    triCount := 1, valid := true }

/-- C4: when the scene has at least one placed instance and the backend
build call fails, buildAccelerationStructures returns false and the whole
scene state, in particular the traversable handle, the node set and the
geometry cache, is exactly what it was before the call. -/
theorem C4_rebuild_failure_atomic (builtHandle : Nat) (s : SceneState)
    (hinst : s.iasChildren ≠ 0) :
    (buildAccelerationStructures false builtHandle s).1 = false ∧
    getTraversableHandle (buildAccelerationStructures false builtHandle s).2 =
      getTraversableHandle s ∧
    (buildAccelerationStructures false builtHandle s).2 = s := by
  simp [buildAccelerationStructures, hinst]

/-- Witness for C4 at a concrete one-instance scene. -/
theorem C4_rebuild_failure_atomic_witness :
    stateW4.iasChildren ≠ 0 ∧
    ((buildAccelerationStructures false 99 stateW4).1 = false ∧
     getTraversableHandle (buildAccelerationStructures false 99 stateW4).2 =
       getTraversableHandle stateW4 ∧
     (buildAccelerationStructures false 99 stateW4).2 = stateW4) :=
  ⟨by decide, C4_rebuild_failure_atomic 99 stateW4 (by decide)⟩

/-- C5: in a render call entered with both restart flags clear and the
counter within the cap, the counter resets to 0 exactly when the camera is
dirty or motion is flagged, otherwise it increments by 1 saturating at the
cap, it never exceeds the cap, the reset-temporal-buffer launch flag holds
iff the launched accumulation count is 0, the launched count is the
updated counter, and both restart flags are clear again afterwards. -/
theorem C5_accumulation_reset (inp : FrameInput) (s : RendererState)
    (hcc : s.cameraChanged = false) (hra : s.restartAccumulation = false)
    (hcap : s.accumulationFrame ≤ maxAccumulationFrames) :
    ((renderStep inp s).1.accumulationFrame = 0 ↔
       inp.cameraDirtyOrSettingsChanged = true ∨ inp.updateMotion = true) ∧
    (inp.cameraDirtyOrSettingsChanged = false → inp.updateMotion = false →
       (renderStep inp s).1.accumulationFrame =
         min (s.accumulationFrame + 1) maxAccumulationFrames) ∧
    (renderStep inp s).1.accumulationFrame ≤ maxAccumulationFrames ∧
    ((renderStep inp s).2.resetFlowBuffer = true ↔
       (renderStep inp s).2.numAccumFrames = 0) ∧
    (renderStep inp s).2.numAccumFrames = (renderStep inp s).1.accumulationFrame ∧
    (renderStep inp s).1.cameraChanged = false ∧
    (renderStep inp s).1.restartAccumulation = false := by
  cases hd : inp.cameraDirtyOrSettingsChanged <;> cases hm : inp.updateMotion <;>
    by_cases hlt : s.accumulationFrame < maxAccumulationFrames <;>
    (simp only [maxAccumulationFrames] at hcap hlt ⊢
     simp [renderStep, updateCameraBody, maxAccumulationFrames, hcc, hra, hd, hm, hlt]
     try omega)

/-- Witness for C5 at a concrete dirty-camera frame. -/
theorem C5_accumulation_reset_witness :
    rsW5.cameraChanged = false ∧ rsW5.restartAccumulation = false ∧
    rsW5.accumulationFrame ≤ maxAccumulationFrames ∧
    (((renderStep fiW5 rsW5).1.accumulationFrame = 0 ↔
        fiW5.cameraDirtyOrSettingsChanged = true ∨ fiW5.updateMotion = true) ∧
     (fiW5.cameraDirtyOrSettingsChanged = false → fiW5.updateMotion = false →
        (renderStep fiW5 rsW5).1.accumulationFrame =
          min (rsW5.accumulationFrame + 1) maxAccumulationFrames) ∧
     (renderStep fiW5 rsW5).1.accumulationFrame ≤ maxAccumulationFrames ∧
     ((renderStep fiW5 rsW5).2.resetFlowBuffer = true ↔
        (renderStep fiW5 rsW5).2.numAccumFrames = 0) ∧
     (renderStep fiW5 rsW5).2.numAccumFrames =
       (renderStep fiW5 rsW5).1.accumulationFrame ∧
     (renderStep fiW5 rsW5).1.cameraChanged = false ∧
     (renderStep fiW5 rsW5).1.restartAccumulation = false) :=
  ⟨rfl, rfl, by decide, C5_accumulation_reset fiW5 rsW5 rfl rfl (by decide)⟩

/-- C7: adding a node whose id is already tracked returns success and
returns the state unchanged, so the node count, both slot pools, the
geometry cache and the needs-rebuild flag are exactly as before. -/
theorem C7_idempotent_add (C : Caps) (inp : NodeInput) (s : SceneState)
    (halive : inp.alive = true) (hid : inp.id ≠ INVALID_ID)
    (hpresent : (lookupKey inp.id s.node_resources).isSome = true) :
    addRenderableNode C inp s = (true, s) := by
  simp [addRenderableNode, halive, hid, hpresent]

/-- Witness for C7: re-adding tracked node 1 changes nothing. -/
theorem C7_idempotent_add_witness :
    inpW7.alive = true ∧ inpW7.id ≠ INVALID_ID ∧
    (lookupKey inpW7.id stateW7.node_resources).isSome = true ∧
    addRenderableNode capsW inpW7 stateW7 = (true, stateW7) :=
  ⟨by decide, by decide, by decide,
   C7_idempotent_add capsW inpW7 stateW7 (by decide) (by decide) (by decide)⟩

/-- C8: the geometry content hash is a function of exactly the vertex
count, the triangle count and the sampled first coordinates of the first
and last vertex: any two models agreeing on those four values hash
identically, whatever their remaining vertex and index data. -/
theorem C8_hash_only_uses_counts_and_sample (m1 m2 : CgModel)
    (hvc : vertexCount m1 = vertexCount m2)
    (htc : triangleCount m1 = triangleCount m2)
    (hf : firstX m1 = firstX m2) (hl : lastX m1 = lastX m2) :
    computeGeometryHash m1 = computeGeometryHash m2 := by
  have hlen : m1.V.length = m2.V.length := hvc
  simp only [computeGeometryHash, hlen, htc, hf, hl, hvc]

/-- Witness for C8: two different geometries of identical size with a
matching sample alias to the same hash. -/
theorem C8_hash_only_uses_counts_and_sample_witness :
    mW8a ≠ mW8b ∧ vertexCount mW8a = vertexCount mW8b ∧
    triangleCount mW8a = triangleCount mW8b ∧ firstX mW8a = firstX mW8b ∧
    lastX mW8a = lastX mW8b ∧
    computeGeometryHash mW8a = computeGeometryHash mW8b :=
  ⟨by decide, by decide, by decide, by decide, by decide,
   C8_hash_only_uses_counts_and_sample mW8a mW8b (by decide) (by decide)
     (by decide) (by decide)⟩

/-- C10: removing through an expired weak reference returns false and
leaves the whole scene state unchanged, whatever resources are still
tracked; reclaiming a destroyed node takes the by-id path. -/
theorem C10_expired_weak_remove_noop (id : Nat) (s : SceneState) :
    removeRenderableNode false id s = (false, s) := by
  simp [removeRenderableNode]

/- Geometry-cache helper lemmas. -/

/-- Decrementing right after incrementing the same hash restores the cache. -/
theorem decRef_bumpRef (c : List (Nat × GeometryGroupResources)) (h : Nat) :
    decRef (bumpRef c h) h = c := by
  induction c with
  | nil => rfl
  | cons p t ih =>
    by_cases hp : p.1 = h <;>
      simp only [bumpRef, decRef, List.map_cons, hp, ite_true, ite_false,
        Nat.add_sub_cancel] at ih ⊢
    · rw [ih, ← hp]
    · rw [ih]

/-- Decrementing a hash with no cache entry changes nothing. -/
theorem decRef_eq_of_lookupKey_none (c : List (Nat × GeometryGroupResources))
    (h : Nat) (hnone : lookupKey h c = none) : decRef c h = c := by
  induction c with
  | nil => rfl
  | cons p t ih =>
    by_cases hp : p.1 = h
    · simp [lookupKey, hp] at hnone
    · simp only [lookupKey, hp, if_false, ite_false] at hnone
      simp only [decRef, List.map_cons, hp, if_false, ite_false]
      simp only [decRef] at ih
      rw [ih hnone]

/-- Both rollback paths of addAfterIntern: the call reports failure, stores
no record, releases the instance slot, leaves the geometry-instance pool as
found, and decrements the cache claim for the interned hash. -/
theorem addAfterIntern_fail (C : Caps) (inp : NodeInput) (islot h : Nat)
    (s2 : SceneState)
    (hfail : C.maxNumGeometryInstances ≤
               getFirstAvailableSlot C.maxNumGeometryInstances s2.geomInstInUse ∨
             inp.instOk = false) :
    (addAfterIntern C inp islot h s2).1 = false ∧
    (addAfterIntern C inp islot h s2).2.node_resources = s2.node_resources ∧
    (addAfterIntern C inp islot h s2).2.instInUse = s2.instInUse.erase islot ∧
    (addAfterIntern C inp islot h s2).2.geomInstInUse = s2.geomInstInUse ∧
    (addAfterIntern C inp islot h s2).2.geometry_cache = decRef s2.geometry_cache h := by
  by_cases hg : C.maxNumGeometryInstances ≤
      getFirstAvailableSlot C.maxNumGeometryInstances s2.geomInstInUse
  · simp [addAfterIntern, hg]
  · rcases hfail with hf | hf
    · exact absurd hf hg
    · simp [addAfterIntern, hg, hf]

/-- Unfolding decRef over a cons whose key is the decremented hash. -/
theorem decRef_cons_self (c : List (Nat × GeometryGroupResources)) (h : Nat)
    (g : GeometryGroupResources) :
    decRef ((h, g) :: c) h = (h, { g with ref_count := g.ref_count - 1 }) :: decRef c h := by
  simp [decRef]

/- Concrete scenario for the geometry-cache lifecycle and rollback claims. -/

/-- A small pool configuration keeping concrete evaluation cheap. -/
def capsS : Caps := { maxNumMaterials := 4, maxNumGeometryInstances := 4,
                      maxNumInstances := 4 }

/-- A configuration whose geometry-instance pool holds a single slot. -/
def capsC3 : Caps := { maxNumMaterials := 4, maxNumGeometryInstances := 1,
                       maxNumInstances := 4 }

/-- The one-triangle test model of testNodeManagement (SceneHandler.cpp:456-476). -/
def mW1 : CgModel :=
  { V := [(0, 0, 0), (1, 0, 0), (0, 1, 0)], S := [{ F := [(0, 1, 2)] }],
    triCount := 1, valid := true }

/-- A model with a different geometry content hash than mW1. -/
def mW3 : CgModel :=
  { V := [(5, 0, 0)], S := [{ F := [(0, 0, 0)] }], triCount := 1, valid := true }

/-- Node 1 carrying mW1. -/
def inpW1a : NodeInput :=
  { alive := true, id := 1, model := some mW1, gpuFailGeom := false, instOk := true,
    transform := 10 }

/-- Node 2 carrying the same model mW1. -/
def inpW1b : NodeInput :=
  { alive := true, id := 2, model := some mW1, gpuFailGeom := false, instOk := true,
    transform := 11 }

/-- Node 2 carrying the fresh-hash model mW3. -/
def inpW3b : NodeInput :=
  { alive := true, id := 2, model := some mW3, gpuFailGeom := false, instOk := true,
    transform := 2 }

/-- The hash both C1 nodes share. -/
def hashW1 : Nat := computeGeometryHash mW1

/-- The scene after adding nodes 1 and 2, both with geometry mW1. -/
def sAddsW1 : SceneState :=
  runOps capsS [SceneOp.add inpW1a, SceneOp.add inpW1b] initialState

/-- The same scene after removing both nodes again. -/
def sRemsW1 : SceneState :=
  runOps capsS [SceneOp.removeByID 1, SceneOp.removeByID 2] sAddsW1

/-- The single-geometry-slot scene after adding node 1 with mW1. -/
def sW3 : SceneState := (addRenderableNode capsC3 inpW1a initialState).2

/-- C1: evaluated at the failing input (add nodes 1 and 2 sharing one
geometry hash, then remove both): after the adds the cache holds exactly
one group with ref_count 2 from a single bottom-level build, exactly as
the claim states; but after removing both nodes the group is not
destroyed — the node count is 0 while the cache entry survives with
ref_count still 2, because removeRenderableNodeByID never releases the
geometry-cache claim. -/
theorem C1_remove_never_releases_cache_claim :
    sAddsW1.geometry_cache = [(hashW1, { ref_count := 2 })] ∧
    sAddsW1.blasBuilds = 1 ∧
    getNodeCount sAddsW1 = 2 ∧
    getNodeCount sRemsW1 = 0 ∧
    sRemsW1.geometry_cache = [(hashW1, { ref_count := 2 })] := by
  decide

/-- C3 counterexample: with the geometry-instance pool exhausted, adding
node 2 with a fresh geometry hash fails as claimed, but the geometry-cache
claim taken by the failing call is not fully released: the GeometryGroup
created by this call stays in the cache with ref_count 0 instead of being
destroyed. -/
theorem C3_counterexample_zero_ref_entry_persists :
    (addRenderableNode capsC3 inpW3b sW3).1 = false ∧
    lookupKey (computeGeometryHash mW3) sW3.geometry_cache = none ∧
    lookupKey (computeGeometryHash mW3)
      (addRenderableNode capsC3 inpW3b sW3).2.geometry_cache =
      some { ref_count := 0 } := by
  decide

/-- C3 (amended): whenever addRenderableNode fails after the instance slot
was allocated because the geometry-instance pool is exhausted or instance
creation fails, it returns false, releases both slots, stores no
NodeResources, undoes the ref-count increment taken by this call (so a
pre-existing cache is unchanged), and leaves every pre-existing claim
intact; however a GeometryGroup newly created by this call remains cached
with ref_count 0 rather than being destroyed. -/
theorem C3_add_rollback_releases_slots (C : Caps) (inp : NodeInput) (s : SceneState)
    (m : CgModel)
    (hm : inp.model = some m)
    (halive : inp.alive = true)
    (hid : inp.id ≠ INVALID_ID)
    (hnew : lookupKey inp.id s.node_resources = none)
    (hvalid : m.valid = true)
    (hislot : getFirstAvailableSlot C.maxNumInstances s.instInUse < C.maxNumInstances)
    (hgok : createGeometryGroupOk m inp.gpuFailGeom = true)
    (hfail : C.maxNumGeometryInstances ≤
               getFirstAvailableSlot C.maxNumGeometryInstances s.geomInstInUse ∨
             inp.instOk = false) :
    (addRenderableNode C inp s).1 = false ∧
    (addRenderableNode C inp s).2.node_resources = s.node_resources ∧
    (addRenderableNode C inp s).2.instInUse = s.instInUse ∧
    (addRenderableNode C inp s).2.geomInstInUse = s.geomInstInUse ∧
    (lookupKey (computeGeometryHash m) s.geometry_cache ≠ none →
       (addRenderableNode C inp s).2.geometry_cache = s.geometry_cache) ∧
    (lookupKey (computeGeometryHash m) s.geometry_cache = none →
       (addRenderableNode C inp s).2.geometry_cache =
         (computeGeometryHash m, { ref_count := 0 }) :: s.geometry_cache) := by
  have hns : ¬ C.maxNumInstances ≤ getFirstAvailableSlot C.maxNumInstances s.instInUse :=
    not_le.mpr hislot
  by_cases hg : C.maxNumGeometryInstances ≤
      getFirstAvailableSlot C.maxNumGeometryInstances s.geomInstInUse
  · rcases hcache : lookupKey (computeGeometryHash m) s.geometry_cache with _ | g
    · simp [addRenderableNode, addAfterIntern, halive, hid, hnew, hm, hvalid, hns,
        hcache, hgok, hg, decRef_cons_self, decRef_eq_of_lookupKey_none _ _ hcache]
    · simp [addRenderableNode, addAfterIntern, halive, hid, hnew, hm, hvalid, hns,
        hcache, hgok, hg, decRef_bumpRef]
  · have hio : inp.instOk = false := hfail.resolve_left hg
    rcases hcache : lookupKey (computeGeometryHash m) s.geometry_cache with _ | g
    · simp [addRenderableNode, addAfterIntern, halive, hid, hnew, hm, hvalid, hns,
        hcache, hgok, hg, hio, decRef_cons_self, decRef_eq_of_lookupKey_none _ _ hcache]
    · simp [addRenderableNode, addAfterIntern, halive, hid, hnew, hm, hvalid, hns,
        hcache, hgok, hg, hio, decRef_bumpRef]

/-- Witness for the amended C3 at the exhausted-geometry-pool scene. -/
theorem C3_add_rollback_releases_slots_witness :
    inpW3b.model = some mW3 ∧ inpW3b.alive = true ∧ inpW3b.id ≠ INVALID_ID ∧
    lookupKey inpW3b.id sW3.node_resources = none ∧ mW3.valid = true ∧
    getFirstAvailableSlot capsC3.maxNumInstances sW3.instInUse <
      capsC3.maxNumInstances ∧
    createGeometryGroupOk mW3 inpW3b.gpuFailGeom = true ∧
    capsC3.maxNumGeometryInstances ≤
      getFirstAvailableSlot capsC3.maxNumGeometryInstances sW3.geomInstInUse ∧
    ((addRenderableNode capsC3 inpW3b sW3).1 = false ∧
     (addRenderableNode capsC3 inpW3b sW3).2.node_resources = sW3.node_resources ∧
     (addRenderableNode capsC3 inpW3b sW3).2.instInUse = sW3.instInUse ∧
     (addRenderableNode capsC3 inpW3b sW3).2.geomInstInUse = sW3.geomInstInUse ∧
     (lookupKey (computeGeometryHash mW3) sW3.geometry_cache ≠ none →
        (addRenderableNode capsC3 inpW3b sW3).2.geometry_cache = sW3.geometry_cache) ∧
     (lookupKey (computeGeometryHash mW3) sW3.geometry_cache = none →
        (addRenderableNode capsC3 inpW3b sW3).2.geometry_cache =
          (computeGeometryHash mW3, { ref_count := 0 }) :: sW3.geometry_cache)) :=
  ⟨rfl, rfl, by decide, by decide, rfl, by decide, by decide, by decide,
   C3_add_rollback_releases_slots capsC3 inpW3b sW3 mW3 rfl rfl (by decide)
     (by decide) rfl (by decide) (by decide) (Or.inl (by decide))⟩

/- Invariant: the traversable handle is only written by builds, and the
has-geometry flag is cleared whenever the node set empties. -/

/-- The state invariant behind C2: under add/remove operations the
traversable handle keeps its initial sentinel value, and an empty node set
forces the has-geometry flag off. -/
def HandleInv (s : SceneState) : Prop :=
  s.traversable_handle = 0 ∧ (s.node_resources = [] → s.has_geometry = false)

/-- addRenderableNode preserves HandleInv on every path. -/
theorem handleInv_add (C : Caps) (inp : NodeInput) (s : SceneState)
    (hs : HandleInv s) : HandleInv (addRenderableNode C inp s).2 := by
  obtain ⟨h1, h2⟩ := hs
  simp only [addRenderableNode, addAfterIntern]
  repeat' split
  all_goals simp_all [HandleInv]

/-- removeRenderableNodeByID preserves HandleInv on every path. -/
theorem handleInv_removeByID (id : Nat) (s : SceneState)
    (hs : HandleInv s) : HandleInv (removeRenderableNodeByID id s).2 := by
  obtain ⟨h1, h2⟩ := hs
  simp only [removeRenderableNodeByID]
  repeat' split
  all_goals simp_all [HandleInv, List.isEmpty_iff]

/-- Every node-lifecycle operation preserves HandleInv. -/
theorem handleInv_applyOp (C : Caps) (s : SceneState) (op : SceneOp)
    (hs : HandleInv s) : HandleInv (applyOp C s op) := by
  cases op with
  | add inp => exact handleInv_add C inp s hs
  | remove alive id =>
    cases alive with
    | false => exact hs
    | true => exact handleInv_removeByID id s hs
  | removeByID id => exact handleInv_removeByID id s hs

/-- HandleInv holds along any operation sequence. -/
theorem handleInv_runOps (C : Caps) (ops : List SceneOp) (s : SceneState)
    (hs : HandleInv s) : HandleInv (runOps C ops s) := by
  induction ops generalizing s with
  | nil => exact hs
  | cons op rest ih => exact ih _ (handleInv_applyOp C s op hs)

/-- C2: after any sequence of adds and removes from the initialized state
that ends with node count 0, hasGeometry reports false and the traversable
handle is the empty sentinel 0. -/
theorem C2_empty_scene_sentinel (C : Caps) (ops : List SceneOp)
    (hcount : getNodeCount (runOps C ops initialState) = 0) :
    hasGeometry (runOps C ops initialState) = false ∧
    getTraversableHandle (runOps C ops initialState) = 0 := by
  have h := handleInv_runOps C ops initialState ⟨rfl, fun _ => rfl⟩
  have hnil : (runOps C ops initialState).node_resources = [] :=
    List.length_eq_zero.mp hcount
  exact ⟨h.2 hnil, h.1⟩

/-- The add-then-remove sequence used to witness C2. -/
def opsW2 : List SceneOp := [SceneOp.add inpW1a, SceneOp.removeByID 1]

/-- Witness for C2 at a concrete add-then-remove sequence. -/
theorem C2_empty_scene_sentinel_witness :
    getNodeCount (runOps capsS opsW2 initialState) = 0 ∧
    (hasGeometry (runOps capsS opsW2 initialState) = false ∧
     getTraversableHandle (runOps capsS opsW2 initialState) = 0) :=
  ⟨by decide, C2_empty_scene_sentinel capsS opsW2 (by decide)⟩

/-- A slot handed out below the capacity is not currently in use. -/
theorem getFirstAvailableSlot_not_mem (cap : Nat) (l : List Nat)
    (hcap : cap ≤ UINT32_MAX)
    (hlt : getFirstAvailableSlot cap l < cap) :
    getFirstAvailableSlot cap l ∉ l := by
  unfold getFirstAvailableSlot at *
  cases hf : (List.range cap).find? (fun n => !(l.contains n)) with
  | none =>
    rw [hf] at hlt
    exact absurd hlt (not_lt.mpr hcap)
  | some n =>
    have hp := List.find?_some hf
    simpa using hp

/-- With every index below the capacity in use, the finder reports exhaustion. -/
theorem getFirstAvailableSlot_full (cap : Nat) (l : List Nat)
    (hfull : ∀ n < cap, n ∈ l) :
    getFirstAvailableSlot cap l = UINT32_MAX := by
  unfold getFirstAvailableSlot
  have : (List.range cap).find? (fun n => !(l.contains n)) = none := by
    rw [List.find?_eq_none]
    intro n hn
    simp only [List.mem_range] at hn
    simp [hfull n hn]
  rw [this]

/-- A successful lookup splits the list around the first matching entry,
and eraseKey removes exactly that entry. -/
theorem lookupKey_some_decomp {α : Type} (k : Nat) (l : List (Nat × α)) (r : α)
    (hl : lookupKey k l = some r) :
    ∃ l1 l2, l = l1 ++ (k, r) :: l2 ∧ eraseKey k l = l1 ++ l2 := by
  induction l with
  | nil => simp [lookupKey] at hl
  | cons p t ih =>
    rcases p with ⟨pk, pv⟩
    by_cases hp : pk = k
    · subst hp
      simp only [lookupKey, ite_true, if_true, eq_self_iff_true, Option.some.injEq] at hl
      subst hl
      exact ⟨[], t, by simp, by simp [eraseKey]⟩
    · simp only [lookupKey, hp, if_false, ite_false] at hl
      obtain ⟨l1, l2, h1, h2⟩ := ih hl
      exact ⟨(pk, pv) :: l1, l2, by simp [h1], by simp [eraseKey, hp, h2]⟩


/-- The slot-exclusivity invariant behind C6: both in-use lists are
duplicate-free, every live NodeResources holds slots marked in use, and
no two live records share an instance or geometry-instance slot. -/
structure SlotInv (s : SceneState) : Prop where
  nodupInst : s.instInUse.Nodup
  nodupGeom : s.geomInstInUse.Nodup
  memInst : ∀ p ∈ s.node_resources, p.2.instance_slot ∈ s.instInUse
  memGeom : ∀ p ∈ s.node_resources, p.2.geom_inst_slot ∈ s.geomInstInUse
  pwInst : s.node_resources.Pairwise (fun a b => a.2.instance_slot ≠ b.2.instance_slot)
  pwGeom : s.node_resources.Pairwise (fun a b => a.2.geom_inst_slot ≠ b.2.geom_inst_slot)

/-- The post-intern tail of an add preserves slot exclusivity, given that
the freshly claimed instance slot is marked in use and distinct from
every live record. -/
theorem slotInv_addAfterIntern (C : Caps) (inp : NodeInput) (islot h : Nat)
    (s2 : SceneState)
    (hc2 : C.maxNumGeometryInstances ≤ UINT32_MAX)
    (hni : s2.instInUse.Nodup)
    (hng : s2.geomInstInUse.Nodup)
    (hmi : ∀ p ∈ s2.node_resources, p.2.instance_slot ∈ s2.instInUse)
    (hmg : ∀ p ∈ s2.node_resources, p.2.geom_inst_slot ∈ s2.geomInstInUse)
    (hpi : s2.node_resources.Pairwise (fun a b => a.2.instance_slot ≠ b.2.instance_slot))
    (hpg : s2.node_resources.Pairwise (fun a b => a.2.geom_inst_slot ≠ b.2.geom_inst_slot))
    (hisMem : islot ∈ s2.instInUse)
    (hfresh : ∀ p ∈ s2.node_resources, p.2.instance_slot ≠ islot) :
    SlotInv (addAfterIntern C inp islot h s2).2 := by
  by_cases hg : C.maxNumGeometryInstances ≤
      getFirstAvailableSlot C.maxNumGeometryInstances s2.geomInstInUse
  · refine { nodupInst := ?_, nodupGeom := ?_, memInst := ?_, memGeom := ?_,
             pwInst := ?_, pwGeom := ?_ } <;>
      simp only [addAfterIntern, hg, ite_true, if_true]
    · exact hni.erase islot
    · exact hng
    · intro p hp
      exact (List.mem_erase_of_ne (hfresh p hp)).mpr (hmi p hp)
    · exact hmg
    · exact hpi
    · exact hpg
  · have hglt : getFirstAvailableSlot C.maxNumGeometryInstances s2.geomInstInUse <
        C.maxNumGeometryInstances := not_le.mp hg
    have hgnot : getFirstAvailableSlot C.maxNumGeometryInstances s2.geomInstInUse ∉
        s2.geomInstInUse := getFirstAvailableSlot_not_mem _ _ hc2 hglt
    by_cases hio : inp.instOk
    · refine { nodupInst := ?_, nodupGeom := ?_, memInst := ?_, memGeom := ?_,
               pwInst := ?_, pwGeom := ?_ } <;>
        simp only [addAfterIntern, hg, hio, Bool.not_true, Bool.false_eq_true,
          ite_false, if_false, ite_true, if_true]
      · exact hni
      · exact List.nodup_cons.mpr ⟨hgnot, hng⟩
      · intro p hp
        rcases List.mem_cons.mp hp with hph | hpt
        · rw [hph]
          exact hisMem
        · exact hmi p hpt
      · intro p hp
        rcases List.mem_cons.mp hp with hph | hpt
        · rw [hph]
          exact List.mem_cons_self _ _
        · exact List.mem_cons_of_mem _ (hmg p hpt)
      · refine List.pairwise_cons.mpr ⟨?_, hpi⟩
        intro q hq
        exact (hfresh q hq).symm
      · refine List.pairwise_cons.mpr ⟨?_, hpg⟩
        intro q hq heq
        apply hgnot
        have heq2 : getFirstAvailableSlot C.maxNumGeometryInstances s2.geomInstInUse =
            q.2.geom_inst_slot := heq
        rw [heq2]
        exact hmg q hq
    · refine { nodupInst := ?_, nodupGeom := ?_, memInst := ?_, memGeom := ?_,
               pwInst := ?_, pwGeom := ?_ } <;>
        simp only [addAfterIntern, hg, hio, Bool.not_false, Bool.not_eq_true,
          ite_false, if_false, ite_true, if_true, Bool.not_eq_false,
          List.erase_cons_head]
      all_goals simp only [Bool.not_eq_true] at hio
      · exact hni.erase islot
      · exact hng
      · intro p hp
        exact (List.mem_erase_of_ne (hfresh p hp)).mpr (hmi p hp)
      · exact hmg
      · exact hpi
      · exact hpg


/-- addRenderableNode preserves slot exclusivity on every path. -/
theorem slotInv_add (C : Caps) (inp : NodeInput) (s : SceneState)
    (hc1 : C.maxNumInstances ≤ UINT32_MAX)
    (hc2 : C.maxNumGeometryInstances ≤ UINT32_MAX)
    (hs : SlotInv s) : SlotInv (addRenderableNode C inp s).2 := by
  simp only [addRenderableNode]
  by_cases ha : (!inp.alive) = true
  · simp only [ha, ite_true]
    exact hs
  · simp only [ha, ite_false]
    by_cases hid : inp.id = INVALID_ID
    · simp only [hid, ite_true]
      exact hs
    · simp only [hid, ite_false]
      by_cases hpres : (lookupKey inp.id s.node_resources).isSome = true
      · simp only [hpres, ite_true]
        exact hs
      · simp only [hpres, ite_false]
        rcases hmod : inp.model with _ | m
        · simp only [hmod]
          exact hs
        · simp only [hmod]
          by_cases hval : (!m.valid) = true
          · simp only [hval, ite_true]
            exact hs
          · simp only [hval, ite_false]
            by_cases hline : C.maxNumInstances ≤
                getFirstAvailableSlot C.maxNumInstances s.instInUse
            · simp only [hline, ite_true]
              exact hs
            · simp only [hline, ite_false]
              have hlt := not_le.mp hline
              have hnotmem := getFirstAvailableSlot_not_mem _ _ hc1 hlt
              have hfresh : ∀ p ∈ s.node_resources, p.2.instance_slot ≠
                  getFirstAvailableSlot C.maxNumInstances s.instInUse := by
                intro p hp heq
                exact hnotmem (heq ▸ hs.memInst p hp)
              cases hcache : lookupKey (computeGeometryHash m) s.geometry_cache with
              | some g =>
                simp only [hcache]
                exact slotInv_addAfterIntern C inp _ _ _ hc2
                  (List.nodup_cons.mpr ⟨hnotmem, hs.nodupInst⟩) hs.nodupGeom
                  (fun p hp => List.mem_cons_of_mem _ (hs.memInst p hp)) hs.memGeom
                  hs.pwInst hs.pwGeom (List.mem_cons_self _ _) hfresh
              | none =>
                simp only [hcache]
                by_cases hok : createGeometryGroupOk m inp.gpuFailGeom = true
                · simp only [hok, ite_true]
                  exact slotInv_addAfterIntern C inp _ _ _ hc2
                    (List.nodup_cons.mpr ⟨hnotmem, hs.nodupInst⟩) hs.nodupGeom
                    (fun p hp => List.mem_cons_of_mem _ (hs.memInst p hp)) hs.memGeom
                    hs.pwInst hs.pwGeom (List.mem_cons_self _ _) hfresh
                · simp only [hok, ite_false]
                  refine { nodupInst := ?_, nodupGeom := ?_, memInst := ?_,
                           memGeom := ?_, pwInst := ?_, pwGeom := ?_ } <;>
                    simp only [List.erase_cons_head]
                  · exact hs.nodupInst
                  · exact hs.nodupGeom
                  · exact hs.memInst
                  · exact hs.memGeom
                  · exact hs.pwInst
                  · exact hs.pwGeom


/-- removeRenderableNodeByID preserves slot exclusivity on every path. -/
theorem slotInv_removeByID (id : Nat) (s : SceneState) (hs : SlotInv s) :
    SlotInv (removeRenderableNodeByID id s).2 := by
  simp only [removeRenderableNodeByID]
  cases hl : lookupKey id s.node_resources with
  | none =>
    exact hs
  | some r =>
    dsimp only
    obtain ⟨l1, l2, hdec, herase⟩ := lookupKey_some_decomp id _ r hl
    have hpwI := hs.pwInst
    have hpwG := hs.pwGeom
    rw [hdec] at hpwI hpwG
    obtain ⟨pwI1, pwIc, crossI⟩ := List.pairwise_append.mp hpwI
    obtain ⟨headI, pwI2⟩ := List.pairwise_cons.mp pwIc
    obtain ⟨pwG1, pwGc, crossG⟩ := List.pairwise_append.mp hpwG
    obtain ⟨headG, pwG2⟩ := List.pairwise_cons.mp pwGc
    have hsub : (l1 ++ l2).Sublist s.node_resources := by
      rw [hdec]
      exact List.Sublist.append_left (List.sublist_cons_self _ _) l1
    have hneI : ∀ p ∈ l1 ++ l2, p.2.instance_slot ≠ r.instance_slot := by
      intro p hp
      rcases List.mem_append.mp hp with h1 | h2
      · exact crossI p h1 (id, r) (List.mem_cons_self _ _)
      · exact fun heq => (headI p h2) heq.symm
    have hneG : ∀ p ∈ l1 ++ l2, p.2.geom_inst_slot ≠ r.geom_inst_slot := by
      intro p hp
      rcases List.mem_append.mp hp with h1 | h2
      · exact crossG p h1 (id, r) (List.mem_cons_self _ _)
      · exact fun heq => (headG p h2) heq.symm
    refine { nodupInst := ?_, nodupGeom := ?_, memInst := ?_, memGeom := ?_,
             pwInst := ?_, pwGeom := ?_ }
    · by_cases hgd : r.instance_slot ≠ UINT32_MAX
      · rw [if_pos hgd]
        exact hs.nodupInst.erase _
      · rw [if_neg hgd]
        exact hs.nodupInst
    · by_cases hgd : r.geom_inst_slot ≠ UINT32_MAX
      · rw [if_pos hgd]
        exact hs.nodupGeom.erase _
      · rw [if_neg hgd]
        exact hs.nodupGeom
    · intro p hp
      rw [herase] at hp
      by_cases hgd : r.instance_slot ≠ UINT32_MAX
      · rw [if_pos hgd]
        exact (List.mem_erase_of_ne (hneI p hp)).mpr (hs.memInst p (hsub.subset hp))
      · rw [if_neg hgd]
        exact hs.memInst p (hsub.subset hp)
    · intro p hp
      rw [herase] at hp
      by_cases hgd : r.geom_inst_slot ≠ UINT32_MAX
      · rw [if_pos hgd]
        exact (List.mem_erase_of_ne (hneG p hp)).mpr (hs.memGeom p (hsub.subset hp))
      · rw [if_neg hgd]
        exact hs.memGeom p (hsub.subset hp)
    · rw [herase]
      exact hs.pwInst.sublist hsub
    · rw [herase]
      exact hs.pwGeom.sublist hsub

/-- Every node-lifecycle operation preserves slot exclusivity. -/
theorem slotInv_applyOp (C : Caps) (s : SceneState) (op : SceneOp)
    (hc1 : C.maxNumInstances ≤ UINT32_MAX)
    (hc2 : C.maxNumGeometryInstances ≤ UINT32_MAX)
    (hs : SlotInv s) : SlotInv (applyOp C s op) := by
  cases op with
  | add inp => exact slotInv_add C inp s hc1 hc2 hs
  | remove alive id =>
    cases alive with
    | false => exact hs
    | true => exact slotInv_removeByID id s hs
  | removeByID id => exact slotInv_removeByID id s hs

/-- Slot exclusivity holds along any operation sequence. -/
theorem slotInv_runOps (C : Caps) (ops : List SceneOp) (s : SceneState)
    (hc1 : C.maxNumInstances ≤ UINT32_MAX)
    (hc2 : C.maxNumGeometryInstances ≤ UINT32_MAX)
    (hs : SlotInv s) : SlotInv (runOps C ops s) := by
  induction ops generalizing s with
  | nil => exact hs
  | cons op rest ih => exact ih _ (slotInv_applyOp C s op hc1 hc2 hs)


/-- An add of a new node attempted with either pool exhausted fails and
leaves the record map and both in-use pools unchanged. -/
theorem addRenderableNode_pool_full (C : Caps) (inp : NodeInput) (s : SceneState)
    (hc1 : C.maxNumInstances ≤ UINT32_MAX)
    (hc2 : C.maxNumGeometryInstances ≤ UINT32_MAX)
    (hnew : lookupKey inp.id s.node_resources = none)
    (hfull : (∀ n < C.maxNumInstances, n ∈ s.instInUse) ∨
             (∀ n < C.maxNumGeometryInstances, n ∈ s.geomInstInUse)) :
    (addRenderableNode C inp s).1 = false ∧
    (addRenderableNode C inp s).2.node_resources = s.node_resources ∧
    (addRenderableNode C inp s).2.instInUse = s.instInUse ∧
    (addRenderableNode C inp s).2.geomInstInUse = s.geomInstInUse := by
  rcases hfull with hfull | hfull
  · have hslot := getFirstAvailableSlot_full _ _ hfull
    simp only [addRenderableNode, addAfterIntern, hslot, hnew, Option.isSome_none]
    repeat' split
    all_goals simp_all [List.erase_cons_head]
  · have hslot := getFirstAvailableSlot_full _ _ hfull
    simp only [addRenderableNode, addAfterIntern, hnew, Option.isSome_none]
    repeat' split
    all_goals simp_all [List.erase_cons_head]

/-- C6: in every state reachable by any add/remove sequence from the
initialized state, no two live NodeResources share an instance slot and no
two share a geometry-instance slot — unconditionally; and for every add of
a not-yet-tracked node attempted while the instance or geometry-instance
pool is exhausted (every index below the capacity in use), the add returns
false leaving the record map and both in-use pools unchanged, so no
existing claim is modified or overwritten. The capacity bounds are those
of the uint32 SlotFinder. -/
theorem C6_slot_exclusivity (C : Caps) (ops : List SceneOp)
    (hc1 : C.maxNumInstances ≤ UINT32_MAX)
    (hc2 : C.maxNumGeometryInstances ≤ UINT32_MAX) :
    (runOps C ops initialState).node_resources.Pairwise
      (fun a b => a.2.instance_slot ≠ b.2.instance_slot) ∧
    (runOps C ops initialState).node_resources.Pairwise
      (fun a b => a.2.geom_inst_slot ≠ b.2.geom_inst_slot) ∧
    (∀ inp : NodeInput,
      lookupKey inp.id (runOps C ops initialState).node_resources = none →
      ((∀ n < C.maxNumInstances, n ∈ (runOps C ops initialState).instInUse) ∨
       (∀ n < C.maxNumGeometryInstances,
          n ∈ (runOps C ops initialState).geomInstInUse)) →
      (addRenderableNode C inp (runOps C ops initialState)).1 = false ∧
      (addRenderableNode C inp (runOps C ops initialState)).2.node_resources =
        (runOps C ops initialState).node_resources ∧
      (addRenderableNode C inp (runOps C ops initialState)).2.instInUse =
        (runOps C ops initialState).instInUse ∧
      (addRenderableNode C inp (runOps C ops initialState)).2.geomInstInUse =
        (runOps C ops initialState).geomInstInUse) := by
  have hinv := slotInv_runOps C ops initialState hc1 hc2
    { nodupInst := List.nodup_nil, nodupGeom := List.nodup_nil,
      memInst := by intro p hp; exact absurd hp (List.not_mem_nil p),
      memGeom := by intro p hp; exact absurd hp (List.not_mem_nil p),
      pwInst := List.Pairwise.nil, pwGeom := List.Pairwise.nil }
  refine ⟨hinv.pwInst, hinv.pwGeom, ?_⟩
  intro inp hnew hfull
  exact addRenderableNode_pool_full C inp _ hc1 hc2 hnew hfull


/-- A configuration with a single instance slot. -/
def capsW6 : Caps := { maxNumMaterials := 4, maxNumGeometryInstances := 4,
                       maxNumInstances := 1 }

/-- The one-add sequence that fills the single instance slot of capsW6. -/
def opsW6 : List SceneOp := [SceneOp.add inpW1a]

/-- Witness for C6: the reached one-node state has pairwise-distinct
slots, and with the instance pool full the next add of a new node fails
and changes no claim. -/
theorem C6_slot_exclusivity_witness :
    capsW6.maxNumInstances ≤ UINT32_MAX ∧
    capsW6.maxNumGeometryInstances ≤ UINT32_MAX ∧
    ((runOps capsW6 opsW6 initialState).node_resources.Pairwise
       (fun a b => a.2.instance_slot ≠ b.2.instance_slot) ∧
     (runOps capsW6 opsW6 initialState).node_resources.Pairwise
       (fun a b => a.2.geom_inst_slot ≠ b.2.geom_inst_slot)) ∧
    lookupKey inpW3b.id (runOps capsW6 opsW6 initialState).node_resources = none ∧
    (∀ n < capsW6.maxNumInstances, n ∈ (runOps capsW6 opsW6 initialState).instInUse) ∧
    ((addRenderableNode capsW6 inpW3b (runOps capsW6 opsW6 initialState)).1 = false ∧
     (addRenderableNode capsW6 inpW3b (runOps capsW6 opsW6 initialState)).2.node_resources =
       (runOps capsW6 opsW6 initialState).node_resources ∧
     (addRenderableNode capsW6 inpW3b (runOps capsW6 opsW6 initialState)).2.instInUse =
       (runOps capsW6 opsW6 initialState).instInUse ∧
     (addRenderableNode capsW6 inpW3b (runOps capsW6 opsW6 initialState)).2.geomInstInUse =
       (runOps capsW6 opsW6 initialState).geomInstInUse) :=
  ⟨by decide, by decide,
   ⟨(C6_slot_exclusivity capsW6 opsW6 (by decide) (by decide)).1,
    (C6_slot_exclusivity capsW6 opsW6 (by decide) (by decide)).2.1⟩,
   by decide, by decide,
   (C6_slot_exclusivity capsW6 opsW6 (by decide) (by decide)).2.2 inpW3b
     (by decide) (Or.inl (by decide))⟩

/-- A successful addAfterIntern stores the new record first in the map,
with the claimed instance slot, and its only instance-table effect is the
copy-0 write at that slot. -/
theorem addAfterIntern_c9 (C : Caps) (inp : NodeInput) (islot h : Nat)
    (s2 : SceneState)
    (hsucc : (addAfterIntern C inp islot h s2).1 = true) :
    ∃ r, lookupKey inp.id (addAfterIntern C inp islot h s2).2.node_resources = some r ∧
      r.instance_slot = islot ∧
      (addAfterIntern C inp islot h s2).2.instData0 =
        writeBuf s2.instData0 islot (mkInstanceData inp.transform false) ∧
      (addAfterIntern C inp islot h s2).2.instData1 = s2.instData1 := by
  by_cases hgs : C.maxNumGeometryInstances ≤
      getFirstAvailableSlot C.maxNumGeometryInstances s2.geomInstInUse
  · have hf := (addAfterIntern_fail C inp islot h s2 (Or.inl hgs)).1
    rw [hf] at hsucc
    exact absurd hsucc (by simp)
  · cases hb : inp.instOk with
    | false =>
      have hf := (addAfterIntern_fail C inp islot h s2 (Or.inr hb)).1
      rw [hf] at hsucc
      exact absurd hsucc (by simp)
    | true =>
      refine ⟨{ instance_slot := islot,
                geom_inst_slot :=
                  getFirstAvailableSlot C.maxNumGeometryInstances s2.geomInstInUse,
                geometry_hash := h, optix_instance_index := s2.iasChildren,
                is_emissive := false }, ?_, rfl, ?_, ?_⟩ <;>
        simp [addAfterIntern, hgs, hb, lookupKey, mkInstanceData]

/-- C9: every successful add of a new node writes the per-instance record
(the transform, its copy as previous-frame transform, the normal matrix
derived from it, and the emissive flag) into copy 0 of the double-buffered
instance table at the instance slot of the stored NodeResources; copy 1 is
never written, and copy 0 is unchanged at every other slot. -/
theorem C9_add_writes_copy0_at_slot_only (C : Caps) (inp : NodeInput) (s : SceneState)
    (hnew : lookupKey inp.id s.node_resources = none)
    (hsucc : (addRenderableNode C inp s).1 = true) :
    ∃ r, lookupKey inp.id (addRenderableNode C inp s).2.node_resources = some r ∧
      (addRenderableNode C inp s).2.instData0 r.instance_slot =
        some (mkInstanceData inp.transform false) ∧
      (∀ i, i ≠ r.instance_slot →
        (addRenderableNode C inp s).2.instData0 i = s.instData0 i) ∧
      (∀ i, (addRenderableNode C inp s).2.instData1 i = s.instData1 i) := by
  simp only [addRenderableNode] at hsucc ⊢
  by_cases ha : (!inp.alive) = true
  · rw [if_pos ha] at hsucc
    exact absurd hsucc (by simp)
  · rw [if_neg ha] at hsucc ⊢
    by_cases hid : inp.id = INVALID_ID
    · rw [if_pos hid] at hsucc
      exact absurd hsucc (by simp)
    · rw [if_neg hid] at hsucc ⊢
      simp only [hnew, Option.isSome_none, Bool.false_eq_true, ite_false] at hsucc ⊢
      rcases hmod : inp.model with _ | m
      · rw [hmod] at hsucc
        simp at hsucc
      · rw [hmod] at hsucc
        dsimp only at hsucc ⊢
        by_cases hval : (!m.valid) = true
        · rw [if_pos hval] at hsucc
          exact absurd hsucc (by simp)
        · rw [if_neg hval] at hsucc ⊢
          by_cases hline : C.maxNumInstances ≤
              getFirstAvailableSlot C.maxNumInstances s.instInUse
          · rw [if_pos hline] at hsucc
            exact absurd hsucc (by simp)
          · rw [if_neg hline] at hsucc ⊢
            cases hcache : lookupKey (computeGeometryHash m) s.geometry_cache with
            | some g =>
              rw [hcache] at hsucc
              dsimp only at hsucc ⊢
              obtain ⟨r, hr, hslot, hbuf0, hbuf1⟩ := addAfterIntern_c9 C inp _ _ _ hsucc
              refine ⟨r, hr, ?_, ?_, ?_⟩
              · rw [hbuf0, hslot]
                simp [writeBuf]
              · intro i hi
                rw [hbuf0]
                simp only [writeBuf, hslot] at hi ⊢
                rw [if_neg hi]
              · intro i
                rw [hbuf1]
            | none =>
              rw [hcache] at hsucc
              dsimp only at hsucc ⊢
              by_cases hok : createGeometryGroupOk m inp.gpuFailGeom = true
              · rw [if_pos hok] at hsucc ⊢
                obtain ⟨r, hr, hslot, hbuf0, hbuf1⟩ := addAfterIntern_c9 C inp _ _ _ hsucc
                refine ⟨r, hr, ?_, ?_, ?_⟩
                · rw [hbuf0, hslot]
                  simp [writeBuf]
                · intro i hi
                  rw [hbuf0]
                  simp only [writeBuf, hslot] at hi ⊢
                  rw [if_neg hi]
                · intro i
                  rw [hbuf1]
              · rw [if_neg hok] at hsucc
                exact absurd hsucc (by simp)


/-- Witness for C9 at a concrete successful add into the empty scene. -/
theorem C9_add_writes_copy0_at_slot_only_witness :
    lookupKey inpW1a.id initialState.node_resources = none ∧
    (addRenderableNode capsS inpW1a initialState).1 = true ∧
    (∃ r, lookupKey inpW1a.id
        (addRenderableNode capsS inpW1a initialState).2.node_resources = some r ∧
      (addRenderableNode capsS inpW1a initialState).2.instData0 r.instance_slot =
        some (mkInstanceData inpW1a.transform false) ∧
      (∀ i, i ≠ r.instance_slot →
        (addRenderableNode capsS inpW1a initialState).2.instData0 i =
          initialState.instData0 i) ∧
      (∀ i, (addRenderableNode capsS inpW1a initialState).2.instData1 i =
        initialState.instData1 i)) :=
  ⟨rfl, by decide,
   C9_add_writes_copy0_at_slot_only capsS inpW1a initialState rfl (by decide)⟩

end Cook
